import Mathlib

/-
  Verification development for the PDF render service
  (src/services/pdfGenerator.ts and src/config/swagger.ts).

  The service is embedded shallowly:
  - JavaScript runtime values that flow through the unvalidated request
    body are modelled by JsVal, with JS truthiness and a typeof-string test.
  - PdfGenerator.generatePdfBuffer is modelled as a function from the
    html value, the options value, the current browser-handle state and an
    abstract engine behaviour (which step fails, if any) to an outcome
    recording the result, whether a launch was attempted, whether the page
    was opened and closed, and the print parameters passed to the engine.
  - The three Express routes are modelled as functions from the request
    body and the outcome of the render call to a response plus a flag
    recording whether the renderer was invoked.
  - initializeBrowser is additionally modelled as a small interleaving
    machine: each caller performs a check step (read this.browser) and a
    launch-completion step (assign this.browser), separated by the await.
-/

namespace Render

/-- JavaScript runtime values relevant to this service. -/
inductive JsVal where
  | undef
  | null
  | bool (b : Bool)
  | num (n : Int)
  | str (s : String)
deriving DecidableEq

/-- JS truthiness of a value. -/
def JsVal.truthy : JsVal → Bool
  | .undef => false
  | .null => false
  | .bool b => b
  | .num n => decide (n ≠ 0)
  | .str s => decide (s ≠ "")

/-- The JS test (typeof v) being the string type. -/
def JsVal.isString : JsVal → Bool
  | .str _ => true
  | _ => false

/-- The PdfMargin interface: four optional string offsets. -/
structure PdfMargin where
  top : Option String
  bottom : Option String
  left : Option String
  right : Option String
deriving DecidableEq

/-- A runtime value in the margin position of the options object:
either absent (undefined), null, or a margin object. -/
inductive MarginVal where
  | undef
  | null
  | objM (m : PdfMargin)
deriving DecidableEq

/-- JS truthiness for a margin-position value: objects are truthy. -/
def MarginVal.truthy : MarginVal → Bool
  | .objM _ => true
  | _ => false

/-- The GeneratePdfOptions object as it exists at runtime: the route
handlers copy req.body fields into it without validation, so the fields
hold arbitrary JS values. -/
structure GeneratePdfOptions where
  paperSize : JsVal
  margin : MarginVal
  printBackground : JsVal
deriving DecidableEq

/-- The default margin object built inline in generatePdfBuffer. -/
def defaultMargin : PdfMargin :=
  { top := some "20px", bottom := some "20px", left := some "20px", right := some "20px" }

/-- The print parameters handed to the engine at the page.pdf call. -/
structure PdfPrintOptions where
  format : JsVal
  margin : PdfMargin
  printBackground : Bool
deriving DecidableEq

/-- The field access options?.paperSize. -/
def optPaperSize : Option GeneratePdfOptions → JsVal
  | none => .undef
  | some o => o.paperSize

/-- The field access options?.margin. -/
def optMargin : Option GeneratePdfOptions → MarginVal
  | none => .undef
  | some o => o.margin

/-- The field access options?.printBackground. -/
def optPrintBackground : Option GeneratePdfOptions → JsVal
  | none => .undef
  | some o => o.printBackground

/-- The pdfOptions object built in generatePdfBuffer:
format is options?.paperSize || A4, margin is options?.margin || the
default object, printBackground is options?.printBackground !== false. -/
def buildPdfOptions (options : Option GeneratePdfOptions) : PdfPrintOptions :=
  { format := if (optPaperSize options).truthy then optPaperSize options else .str "A4"
    margin := match optMargin options with
      | .objM m => m
      | _ => defaultMargin
    printBackground := decide (optPrintBackground options ≠ JsVal.bool false) }

/-- A thrown JS value: an Error object carrying a message, or any other
value. -/
inductive Thrown where
  | errObj (msg : String)
  | other (v : JsVal)
deriving DecidableEq

/-- The message the route handlers extract from a caught value:
error instanceof Error gives its message, anything else the fixed
fallback text. -/
def Thrown.message : Thrown → String
  | .errObj m => m
  | .other _ => "Unknown error occurred"

/-- Abstract behaviour of the external browser engine for one render:
for each awaited engine step, the value it throws (none means success),
and the bytes page.pdf produces on success. -/
structure EngineBehavior where
  launchErr : Option Thrown
  newPageErr : Option Thrown
  setContentErr : Option Thrown
  pdfErr : Option Thrown
  pdfBytes : List Nat
deriving DecidableEq

/-- The observable outcome of one generatePdfBuffer call: its result,
whether a browser launch was attempted, whether the page was opened,
whether it was closed, and the print parameters passed to the engine at
the page.pdf call (none when that call was never reached). -/
structure RunOutcome where
  result : Except Thrown (List Nat)
  launchAttempted : Bool
  pageOpened : Bool
  pageClosed : Bool
  paramsPassed : Option PdfPrintOptions

/-- The validation test in generatePdfBuffer and in every route handler:
the negation of (!htmlTemplate || typeof htmlTemplate !== string). -/
def validHtml (v : JsVal) : Bool := v.truthy && v.isString

/-- PdfGenerator.generatePdfBuffer, traced step by step from the source:
validate the input, initialize the browser when no handle exists, open a
page, build pdfOptions, set the content, capture the PDF, close the page
on the success path only (the catch block rethrows without closing), and
return the bytes. hasBrowser says whether this.browser was already set. -/
def generatePdfBuffer (htmlTemplate : JsVal) (options : Option GeneratePdfOptions)
    (hasBrowser : Bool) (eng : EngineBehavior) : RunOutcome :=
  if !(validHtml htmlTemplate) then
    { result := .error (.errObj "HTML Template Not Found or Invalid!")
      launchAttempted := false, pageOpened := false, pageClosed := false
      paramsPassed := none }
  else
    match hasBrowser, eng.launchErr with
    | false, some t =>
        { result := .error t, launchAttempted := true
          pageOpened := false, pageClosed := false, paramsPassed := none }
    | _, _ =>
      -- after a successful initializeBrowser the handle exists, so the
      -- source guard that throws Failed to initialize browser cannot fire
      let la := !hasBrowser
      match eng.newPageErr with
      | some t =>
          { result := .error t, launchAttempted := la
            pageOpened := false, pageClosed := false, paramsPassed := none }
      | none =>
        let pdfOptions := buildPdfOptions options
        match eng.setContentErr with
        | some t =>
            { result := .error t, launchAttempted := la
              pageOpened := true, pageClosed := false, paramsPassed := none }
        | none =>
          match eng.pdfErr with
          | some t =>
              { result := .error t, launchAttempted := la
                pageOpened := true, pageClosed := false, paramsPassed := some pdfOptions }
          | none =>
              { result := .ok eng.pdfBytes, launchAttempted := la
                pageOpened := true, pageClosed := true, paramsPassed := some pdfOptions }

/-- One Base64 digit. -/
def b64char (n : Nat) : Char :=
  if n < 26 then Char.ofNat (65 + n)
  else if n < 52 then Char.ofNat (97 + (n - 26))
  else if n < 62 then Char.ofNat (48 + (n - 52))
  else if n = 62 then Char.ofNat 43
  else Char.ofNat 47

/-- Standard Base64 encoding of a byte list with padding, the semantics
of Buffer.toString with the base64 argument. -/
def base64Encode : List Nat → String
  | [] => ""
  | [a] =>
      String.mk [b64char (a / 4 % 64), b64char (a % 4 * 16), Char.ofNat 61, Char.ofNat 61]
  | [a, b] =>
      String.mk [b64char (a / 4 % 64), b64char (a % 4 * 16 + b / 16),
        b64char (b % 16 * 4), Char.ofNat 61]
  | a :: b :: c :: rest =>
      String.mk [b64char (a / 4 % 64), b64char (a % 4 * 16 + b / 16),
        b64char (b % 16 * 4 + c / 64), b64char (c % 64)] ++ base64Encode rest

/-- PdfGenerator.generatePdf: await generatePdfBuffer, then encode the
buffer as Base64. -/
def generatePdf (htmlTemplate : JsVal) (options : Option GeneratePdfOptions)
    (hasBrowser : Bool) (eng : EngineBehavior) : Except Thrown String :=
  (generatePdfBuffer htmlTemplate options hasBrowser eng).result.map base64Encode

/-- The lifecycle state of a PdfGenerator instance: the browser handle
(identified by a process id) and the list of engine processes terminated
so far. -/
structure GenState where
  browser : Option Nat
  terminated : List Nat
deriving DecidableEq

/-- PdfGenerator.closeBrowser: when a handle exists, await browser.close
(closeErr is what that await throws, none meaning success), then clear
the handle; when no handle exists, do nothing. -/
def closeBrowser (s : GenState) (closeErr : Option Thrown) : Except Thrown GenState :=
  match s.browser with
  | some b =>
      match closeErr with
      | some t => .error t
      | none => .ok { browser := none, terminated := s.terminated ++ [b] }
  | none => .ok s

/-- State of several concurrent callers of initializeBrowser. Each
caller has a program counter: 0 before the null check, 1 after passing
the null check while its puppeteer.launch is in flight, 2 done. The
browser field is this.browser; launches counts engine processes
launched, and each launch number doubles as the process id assigned. -/
structure InitWorld where
  browser : Option Nat
  launches : Nat
  pcs : List Nat
deriving DecidableEq

/-- One atomic step of caller i of initializeBrowser. At pc 0 the caller
synchronously reads this.browser: if null it calls puppeteer.launch and
suspends (pc 1), otherwise it returns (pc 2). At pc 1 its launch
resolves: the new process is recorded and assigned to this.browser. -/
def initStep (w : InitWorld) (i : Nat) : InitWorld :=
  match w.pcs[i]? with
  | some 0 =>
      if w.browser.isNone then { w with pcs := w.pcs.set i 1 }
      else { w with pcs := w.pcs.set i 2 }
  | some 1 =>
      { browser := some w.launches, launches := w.launches + 1, pcs := w.pcs.set i 2 }
  | _ => w

/-- Run the callers under a given interleaving schedule (a list of
caller indices). -/
def initRun (w : InitWorld) (sched : List Nat) : InitWorld :=
  sched.foldl initStep w

/-- Characters kept unchanged by the download route sanitizer, the
class of the regular expression in the source. -/
def allowedChar (c : Char) : Bool :=
  decide (97 ≤ c.toNat ∧ c.toNat ≤ 122) || decide (65 ≤ c.toNat ∧ c.toNat ≤ 90) ||
  decide (48 ≤ c.toNat ∧ c.toNat ≤ 57) || c == Char.ofNat 45 || c == Char.ofNat 95

/-- Effect of the replace call on one character: a character outside the
allowed class becomes an underscore. -/
def sanitizeChar (c : Char) : Char := if allowedChar c then c else Char.ofNat 95

/-- The sanitizer used by the download route: each character outside the
allowed class is replaced by an underscore (the regular expression
matches single characters, globally). -/
def sanitizeFileName (s : String) : String := String.mk (s.data.map sanitizeChar)

/-- Modelled from the spec wording, for comparison only: a sanitizer
that strips (deletes) every character outside the allowed class. -/
def stripFileNameSpec (s : String) : String := String.mk (s.data.filter allowedChar)

/-- The sanitization line of the download route: default a falsy
fileName to document, then call the replace method, which exists only on
strings; on a non-string receiver the lookup of replace yields a
TypeError. -/
def sanitizeStep (fileName : JsVal) : Except Thrown String :=
  match (if fileName.truthy then fileName else .str "document") with
  | .str s => .ok (sanitizeFileName s)
  | _ => .error (.errObj "fileName.replace is not a function")

/-- A parsed request body: the five fields the handlers destructure from
req.body. Absent fields are undefined. -/
structure RequestBody where
  htmlTemplate : JsVal
  fileName : JsVal
  paperSize : JsVal
  margin : MarginVal
  printBackground : JsVal
deriving DecidableEq

/-- The HTTP responses the handlers can produce. -/
inductive Response where
  | json200 (pdf message : String)
  | text200 (body : String)
  | pdf200 (filename : String) (bytes : List Nat)
  | err400 (error message : String)
  | err500 (error message : String)
deriving DecidableEq

/-- Outcome of one route invocation: the response sent, and whether the
renderer was invoked. -/
structure RouteResult where
  response : Response
  renderCalled : Bool
deriving DecidableEq

/-- The 400 response shared by all three render routes. -/
def invalidHtmlResponse : Response :=
  .err400 "Invalid request" "htmlTemplate is required and must be a string"

/-- The legacy route POST /api/Utility/GeneratePdf: validate, render to
Base64, send the bare Base64 text; any caught value maps to a 500. -/
def utilityRoute (body : RequestBody) (render : Except Thrown String) : RouteResult :=
  if !(validHtml body.htmlTemplate) then
    { response := invalidHtmlResponse, renderCalled := false }
  else
    match render with
    | .ok pdfBase64 => { response := .text200 pdfBase64, renderCalled := true }
    | .error t =>
        { response := .err500 "PDF generation failed" t.message, renderCalled := true }

/-- The JSON route POST /api/pdf/generate: validate, render to Base64,
send the JSON envelope; any caught value maps to a 500. -/
def generateRoute (body : RequestBody) (render : Except Thrown String) : RouteResult :=
  if !(validHtml body.htmlTemplate) then
    { response := invalidHtmlResponse, renderCalled := false }
  else
    match render with
    | .ok pdfBase64 =>
        { response := .json200 pdfBase64 "PDF generated successfully", renderCalled := true }
    | .error t =>
        { response := .err500 "PDF generation failed" t.message, renderCalled := true }

/-- The download route POST /api/pdf/download: validate, render to a
buffer, sanitize the file name, send the attachment whose
Content-Disposition filename is the sanitized name with extension pdf;
any value caught anywhere in the try block maps to a 500. -/
def downloadRoute (body : RequestBody) (render : Except Thrown (List Nat)) : RouteResult :=
  if !(validHtml body.htmlTemplate) then
    { response := invalidHtmlResponse, renderCalled := false }
  else
    match render with
    | .error t =>
        { response := .err500 "PDF generation failed" t.message, renderCalled := true }
    | .ok buf =>
        match sanitizeStep body.fileName with
        | .ok s => { response := .pdf200 (s ++ ".pdf") buf, renderCalled := true }
        | .error t =>
            { response := .err500 "PDF generation failed" t.message, renderCalled := true }

/-- An engine behaviour in which every step succeeds. -/
def engOk : EngineBehavior :=
  { launchErr := none, newPageErr := none, setContentErr := none, pdfErr := none
    pdfBytes := [1, 2, 3] }

/-- An options object whose margin specifies only the top side. -/
def partialMarginOptions : GeneratePdfOptions :=
  { paperSize := .undef
    margin := .objM { top := some "5px", bottom := none, left := none, right := none }
    printBackground := .undef }

/-- An options object carrying only a printBackground value. -/
def pbOpts (v : JsVal) : GeneratePdfOptions :=
  { paperSize := .undef, margin := .undef, printBackground := v }

/-- A request body with a valid htmlTemplate and no other fields. -/
def plainBody : RequestBody :=
  { htmlTemplate := .str "<h1>Hello</h1>", fileName := .undef, paperSize := .undef
    margin := .undef, printBackground := .undef }

/-
  Theorems.
-/

/-- C1: initializeBrowser checks this.browser and only later, after its
awaited launch resolves, assigns it; under the interleaving in which two
callers both pass the null check before either launch resolves, two
engine processes are launched, the second assignment overwrites the
first handle, and the first process leaks — contradicting the claim that
at most one launch ever happens across all interleavings. -/
theorem initializeBrowser_double_launch_race :
    (initRun { browser := none, launches := 0, pcs := [0, 0] } [0, 1, 0, 1]).launches = 2 ∧
    (initRun { browser := none, launches := 0, pcs := [0, 0] } [0, 1, 0, 1]).browser = some 1 ∧
    ¬ (initRun { browser := none, launches := 0, pcs := [0, 0] } [0, 1, 0, 1]).launches ≤ 1 := by
  refine ⟨rfl, rfl, by decide⟩

/-- C2: generatePdfBuffer closes the page only on the success path; when
page.setContent throws, the catch block rethrows without closing, so the
page opened for the call is left open while the error propagates —
contradicting the claim that the page is released on every exit path. -/
theorem generatePdfBuffer_page_not_closed_on_failure :
    (generatePdfBuffer (.str "<h1>x</h1>") none true
      { launchErr := none, newPageErr := none
        setContentErr := some (.errObj "net idle timeout"), pdfErr := none
        pdfBytes := [] }).pageOpened = true ∧
    (generatePdfBuffer (.str "<h1>x</h1>") none true
      { launchErr := none, newPageErr := none
        setContentErr := some (.errObj "net idle timeout"), pdfErr := none
        pdfBytes := [] }).pageClosed = false ∧
    (generatePdfBuffer (.str "<h1>x</h1>") none true
      { launchErr := none, newPageErr := none
        setContentErr := some (.errObj "net idle timeout"), pdfErr := none
        pdfBytes := [] }).result = .error (.errObj "net idle timeout") := by
  refine ⟨rfl, rfl, rfl⟩

/-- C3 counterexample: when a margin object specifying only the top side is supplied,
generatePdfBuffer passes that object to the engine unchanged: the
bottom, left and right sides reach the engine unset rather than as the
documented 20px default. -/
theorem generatePdfBuffer_partial_margin_passed_through :
    (generatePdfBuffer (.str "<p>hi</p>") (some partialMarginOptions) true engOk).paramsPassed
      = some { format := .str "A4"
               margin := { top := some "5px", bottom := none, left := none, right := none }
               printBackground := true } ∧
    (buildPdfOptions (some partialMarginOptions)).margin.bottom ≠ some "20px" := by
  refine ⟨rfl, by decide⟩

/-- Every character produced by the sanitizer is in the allowed class:
allowed characters are kept and everything else becomes an underscore,
which is itself allowed. -/
theorem sanitizeChar_allowed (c : Char) : allowedChar (sanitizeChar c) = true := by
  unfold sanitizeChar
  split
  · assumption
  · decide

/-- C4 counterexample: the download route sanitizer replaces disallowed
characters with underscores instead of stripping them; on the input from
the spec the two disagree. -/
theorem sanitizeFileName_replaces_not_strips :
    sanitizeFileName "../../etc/passwd" = "______etc_passwd" ∧
    stripFileNameSpec "../../etc/passwd" = "etcpasswd" ∧
    sanitizeFileName "../../etc/passwd" ≠ stripFileNameSpec "../../etc/passwd" := by
  refine ⟨by decide, by decide, by decide⟩

/-- C4 (amended): on the download route the Content-Disposition filename
is the supplied fileName with every character outside the allowed class
replaced by an underscore (default document when fileName is absent),
with extension pdf; every character of the sanitized name is in the
class, so in particular no path separator survives. -/
theorem downloadRoute_sanitized_filename (body : RequestBody) (bytes : List Nat) (s : String)
    (hv : validHtml body.htmlTemplate = true) :
    (body.fileName = JsVal.undef →
      (downloadRoute body (.ok bytes)).response = .pdf200 "document.pdf" bytes) ∧
    (body.fileName = JsVal.str s → s ≠ "" →
      (downloadRoute body (.ok bytes)).response
        = .pdf200 (sanitizeFileName s ++ ".pdf") bytes) ∧
    (∀ c ∈ (sanitizeFileName s).data, allowedChar c = true) ∧
    Char.ofNat 47 ∉ (sanitizeFileName s).data := by
  have hall : ∀ c ∈ (sanitizeFileName s).data, allowedChar c = true := by
    intro c hc
    simp only [sanitizeFileName] at hc
    rcases List.mem_map.mp hc with ⟨a, _, rfl⟩
    exact sanitizeChar_allowed a
  refine ⟨?_, ?_, hall, ?_⟩
  · intro h
    simp [downloadRoute, hv, sanitizeStep, h, JsVal.truthy]
    decide
  · intro h hs
    simp [downloadRoute, hv, sanitizeStep, h, JsVal.truthy, hs]
  · intro hmem
    have := hall _ hmem
    simp [allowedChar] at this

/-- C4 witness: for fileName ../../etc/passwd the attachment filename is
the underscore-sanitized name with extension pdf. -/
theorem downloadRoute_sanitized_filename_witness :
    (downloadRoute
        { htmlTemplate := .str "<h1>Hello</h1>", fileName := .str "../../etc/passwd"
          paperSize := .undef, margin := .undef, printBackground := .undef }
        (.ok [1, 2])).response
      = .pdf200 (sanitizeFileName "../../etc/passwd" ++ ".pdf") [1, 2] ∧
    sanitizeFileName "../../etc/passwd" = "______etc_passwd" :=
  ⟨(downloadRoute_sanitized_filename
      { htmlTemplate := .str "<h1>Hello</h1>", fileName := .str "../../etc/passwd"
        paperSize := .undef, margin := .undef, printBackground := .undef }
      [1, 2] "../../etc/passwd" (by decide)).2.1 rfl (by decide), by decide⟩

/-- A value that is absent, the empty string, or not a string fails the
shared validation test. -/
theorem validHtml_false_of (v : JsVal)
    (h : v = JsVal.undef ∨ v = JsVal.str "" ∨ v.isString = false) :
    validHtml v = false := by
  rcases h with rfl | rfl | h
  · decide
  · decide
  · simp [validHtml, h]

/-- C5: a request whose body lacks htmlTemplate or carries a non-string
htmlTemplate is answered 400 with the fixed error and message pair by
each of the three render routes, and the renderer is never invoked;
correspondingly generatePdfBuffer called with an empty or non-string
html value fails with the invalid-input error before any engine
interaction: no launch is attempted and no page is opened. -/
theorem render_routes_reject_invalid_html (body : RequestBody)
    (rU rG : Except Thrown String) (rD : Except Thrown (List Nat)) (html : JsVal)
    (options : Option GeneratePdfOptions) (hasBrowser : Bool) (eng : EngineBehavior)
    (hbody : body.htmlTemplate = JsVal.undef ∨ body.htmlTemplate.isString = false)
    (hhtml : html = JsVal.str "" ∨ html.isString = false) :
    utilityRoute body rU = { response := invalidHtmlResponse, renderCalled := false } ∧
    generateRoute body rG = { response := invalidHtmlResponse, renderCalled := false } ∧
    downloadRoute body rD = { response := invalidHtmlResponse, renderCalled := false } ∧
    generatePdfBuffer html options hasBrowser eng
      = { result := .error (.errObj "HTML Template Not Found or Invalid!")
          launchAttempted := false, pageOpened := false, pageClosed := false
          paramsPassed := none } := by
  have hv : validHtml body.htmlTemplate = false :=
    validHtml_false_of _ (hbody.elim (fun h => Or.inl h) (fun h => Or.inr (Or.inr h)))
  have hv2 : validHtml html = false :=
    validHtml_false_of _ (hhtml.elim (fun h => Or.inr (Or.inl h)) (fun h => Or.inr (Or.inr h)))
  refine ⟨?_, ?_, ?_, ?_⟩
  · simp [utilityRoute, hv]
  · simp [generateRoute, hv]
  · simp [downloadRoute, hv]
  · simp [generatePdfBuffer, hv2]

/-- C5 witness: a body with no htmlTemplate is rejected by all three
routes without invoking the renderer, and generatePdfBuffer on the empty
string fails before any engine interaction. -/
theorem render_routes_reject_invalid_html_witness :
    utilityRoute
        { htmlTemplate := .undef, fileName := .undef, paperSize := .undef
          margin := .undef, printBackground := .undef } (.ok "x")
      = { response := invalidHtmlResponse, renderCalled := false } ∧
    generateRoute
        { htmlTemplate := .undef, fileName := .undef, paperSize := .undef
          margin := .undef, printBackground := .undef } (.ok "x")
      = { response := invalidHtmlResponse, renderCalled := false } ∧
    downloadRoute
        { htmlTemplate := .undef, fileName := .undef, paperSize := .undef
          margin := .undef, printBackground := .undef } (.ok [1])
      = { response := invalidHtmlResponse, renderCalled := false } ∧
    generatePdfBuffer (.str "") none false engOk
      = { result := .error (.errObj "HTML Template Not Found or Invalid!")
          launchAttempted := false, pageOpened := false, pageClosed := false
          paramsPassed := none } :=
  render_routes_reject_invalid_html
    { htmlTemplate := .undef, fileName := .undef, paperSize := .undef
      margin := .undef, printBackground := .undef }
    (.ok "x") (.ok "x") (.ok [1]) (.str "") none false engOk
    (Or.inl rfl) (Or.inl rfl)

/-- C6 counterexample: on the download route a 500 can follow a
successful render: with a truthy non-string fileName the render
succeeds, then the sanitization line inside the same try block throws,
and the catch maps it to a 500 — so the route is not free of 500
responses on successful renders. -/
theorem downloadRoute_err500_after_successful_render :
    (downloadRoute
        { htmlTemplate := .str "<p>x</p>", fileName := .num 5, paperSize := .undef
          margin := .undef, printBackground := .undef }
        (.ok [1, 2, 3])).response
      = .err500 "PDF generation failed" "fileName.replace is not a function" := by
  rfl

/-- C6 (amended): whenever the render call throws, each render route
responds 500 with the fixed error text and with the thrown Error message
when the thrown value is an Error, else the generic message; the legacy
and JSON routes never respond 500 on a successful render; the download
route, on a successful render, responds with the attachment whenever the
filename sanitization step does not throw. -/
theorem routes_error_mapping (body : RequestBody) (t : Thrown) (s fn : String)
    (bytes : List Nat) (hv : validHtml body.htmlTemplate = true) :
    (utilityRoute body (.error t)).response = .err500 "PDF generation failed" t.message ∧
    (generateRoute body (.error t)).response = .err500 "PDF generation failed" t.message ∧
    (downloadRoute body (.error t)).response = .err500 "PDF generation failed" t.message ∧
    (utilityRoute body (.ok s)).response = .text200 s ∧
    (generateRoute body (.ok s)).response = .json200 s "PDF generated successfully" ∧
    (sanitizeStep body.fileName = .ok fn →
      (downloadRoute body (.ok bytes)).response = .pdf200 (fn ++ ".pdf") bytes) := by
  refine ⟨?_, ?_, ?_, ?_, ?_, ?_⟩
  · simp [utilityRoute, hv]
  · simp [generateRoute, hv]
  · simp [downloadRoute, hv]
  · simp [utilityRoute, hv]
  · simp [generateRoute, hv]
  · intro h
    simp [downloadRoute, hv, h]

/-- C6 witness: with a thrown non-Error value the 500 message is the
generic text, with a thrown Error it is that message, successful renders
get their 200 responses, and a successful download render with no
fileName yields the attachment. -/
theorem routes_error_mapping_witness :
    (utilityRoute plainBody (.error (.other (.num 7)))).response
      = .err500 "PDF generation failed" "Unknown error occurred" ∧
    (generateRoute plainBody (.error (.errObj "boom"))).response
      = .err500 "PDF generation failed" "boom" ∧
    (generateRoute plainBody (.ok "QQ==")).response
      = .json200 "QQ==" "PDF generated successfully" ∧
    (downloadRoute plainBody (.ok [9])).response = .pdf200 ("document" ++ ".pdf") [9] :=
  ⟨(routes_error_mapping plainBody (.other (.num 7)) "x" "x" [] (by decide)).1,
   (routes_error_mapping plainBody (.errObj "boom") "x" "x" [] (by decide)).2.1,
   (routes_error_mapping plainBody (.errObj "e") "QQ==" "x" [] (by decide)).2.2.2.2.1,
   (routes_error_mapping plainBody (.errObj "e") "x" "document" [9] (by decide)).2.2.2.2.2
     rfl⟩

/-- C7: generatePdf awaits generatePdfBuffer and encodes its buffer:
whenever generatePdfBuffer succeeds with a buffer, generatePdf succeeds
with exactly its Base64 encoding, and generatePdf fails with a given
thrown value exactly when generatePdfBuffer does. -/
theorem generatePdf_base64_of_generatePdfBuffer (html : JsVal)
    (options : Option GeneratePdfOptions) (hasBrowser : Bool) (eng : EngineBehavior) :
    (∀ b, (generatePdfBuffer html options hasBrowser eng).result = .ok b →
      generatePdf html options hasBrowser eng = .ok (base64Encode b)) ∧
    (∀ t, (generatePdfBuffer html options hasBrowser eng).result = .error t ↔
      generatePdf html options hasBrowser eng = .error t) := by
  unfold generatePdf
  cases h : (generatePdfBuffer html options hasBrowser eng).result with
  | ok b =>
      refine ⟨fun b2 hb => ?_, fun t => ?_⟩
      · cases hb
        rfl
      · simp [Except.map]
  | error t =>
      refine ⟨fun b2 hb => ?_, fun t2 => ?_⟩
      · cases hb
      · simp [Except.map]

/-- C7 witness: on a fully successful engine run generatePdf returns the
Base64 encoding of the buffer generatePdfBuffer returns. -/
theorem generatePdf_base64_of_generatePdfBuffer_witness :
    generatePdf (.str "<h1>Hello</h1>") none true engOk = .ok (base64Encode [1, 2, 3]) ∧
    base64Encode [1, 2, 3] = "AQID" :=
  ⟨(generatePdf_base64_of_generatePdfBuffer (.str "<h1>Hello</h1>") none true engOk).1
      [1, 2, 3] rfl, by decide⟩

/-- C8: closeBrowser is a no-op that cannot throw when no handle exists
(whatever the engine close behaviour would have been); when a handle
exists and the engine close succeeds, it terminates that engine process
and clears the handle; and a second closeBrowser after a successful one
leaves the state of the first unchanged. -/
theorem closeBrowser_props (s s1 : GenState) (b : Nat) (e : Option Thrown) :
    (s.browser = none → closeBrowser s e = .ok s) ∧
    (s.browser = some b →
      closeBrowser s none = .ok { browser := none, terminated := s.terminated ++ [b] }) ∧
    (closeBrowser s none = .ok s1 → closeBrowser s1 none = .ok s1) := by
  refine ⟨fun h => ?_, fun h => ?_, fun h => ?_⟩
  · simp [closeBrowser, h]
  · simp [closeBrowser, h]
  · cases hb : s.browser with
    | none =>
        rw [closeBrowser, hb] at h
        cases h
        simp [closeBrowser, hb]
    | some b2 =>
        rw [closeBrowser, hb] at h
        cases h
        simp [closeBrowser]

/-- C8 witness: closing a generator holding handle 7 terminates process
7 and clears the handle, a second close is then a no-op, and closing a
generator with no handle does nothing even if the engine close would
have thrown. -/
theorem closeBrowser_props_witness :
    closeBrowser { browser := some 7, terminated := [3] } none
      = .ok { browser := none, terminated := [3, 7] } ∧
    closeBrowser { browser := none, terminated := [3, 7] } none
      = .ok { browser := none, terminated := [3, 7] } ∧
    closeBrowser { browser := none, terminated := [] } (some (.errObj "boom"))
      = .ok { browser := none, terminated := [] } :=
  ⟨(closeBrowser_props { browser := some 7, terminated := [3] }
      { browser := none, terminated := [3, 7] } 7 none).2.1 rfl,
   (closeBrowser_props { browser := some 7, terminated := [3] }
      { browser := none, terminated := [3, 7] } 7 none).2.2
     ((closeBrowser_props { browser := some 7, terminated := [3] }
        { browser := none, terminated := [3, 7] } 7 none).2.1 rfl),
   (closeBrowser_props { browser := none, terminated := [] }
      { browser := none, terminated := [] } 0 (some (.errObj "boom"))).1 rfl⟩

/-- C3 (amended): the print parameters default per object, not per
side — paper size is A4 whenever paperSize is absent or otherwise falsy,
printBackground is true whenever the value is not strictly the boolean
false, and the four 20px margin sides apply exactly when the margin
value is absent or otherwise falsy; a supplied margin object is passed
to the engine unchanged, its unspecified sides left unset. -/
theorem buildPdfOptions_defaults (o : Option GeneratePdfOptions) (m : PdfMargin)
    (hps : (optPaperSize o).truthy = false)
    (hpb : optPrintBackground o ≠ JsVal.bool false) :
    (buildPdfOptions o).format = .str "A4" ∧
    (buildPdfOptions o).printBackground = true ∧
    ((optMargin o).truthy = false → (buildPdfOptions o).margin = defaultMargin) ∧
    (optMargin o = .objM m → (buildPdfOptions o).margin = m) := by
  refine ⟨?_, ?_, fun h => ?_, fun h => ?_⟩
  · simp [buildPdfOptions, hps]
  · simp [buildPdfOptions, hpb]
  · cases hm : optMargin o with
    | undef => simp [buildPdfOptions, hm]
    | null => simp [buildPdfOptions, hm]
    | objM m2 => rw [hm] at h; cases h
  · simp [buildPdfOptions, h]

/-- C3 witness: with no options object every default applies, and with
the margin object specifying only the top side the engine parameters
carry that object unchanged. -/
theorem buildPdfOptions_defaults_witness :
    (buildPdfOptions none).format = .str "A4" ∧
    (buildPdfOptions none).printBackground = true ∧
    (buildPdfOptions none).margin = defaultMargin ∧
    (buildPdfOptions (some partialMarginOptions)).margin
      = { top := some "5px", bottom := none, left := none, right := none } :=
  ⟨(buildPdfOptions_defaults none defaultMargin (by decide) (by decide)).1,
   (buildPdfOptions_defaults none defaultMargin (by decide) (by decide)).2.1,
   (buildPdfOptions_defaults none defaultMargin (by decide) (by decide)).2.2.1 (by decide),
   (buildPdfOptions_defaults (some partialMarginOptions)
      { top := some "5px", bottom := none, left := none, right := none }
      (by decide) (by decide)).2.2.2 rfl⟩

/-- C9 counterexample: a fileName that is present but a falsy non-string
does not make sanitization throw: the JS or-default turns the number 0
into the default name document, and the route answers 200 with the
attachment rather than 500. -/
theorem downloadRoute_falsy_fileName_defaulted :
    (downloadRoute
        { htmlTemplate := .str "<p>x</p>", fileName := .num 0, paperSize := .undef
          margin := .undef, printBackground := .undef }
        (.ok [9])).response
      = .pdf200 "document.pdf" [9] := by
  rfl

/-- C9 (amended): on the download route with a valid htmlTemplate and a
successful render, a truthy non-string fileName makes the sanitization
step throw a TypeError, which the catch maps to a 500 error and message
response; a falsy fileName — including falsy non-strings such as the
number 0, null, or false — is instead defaulted to document and the
attachment is served. -/
theorem downloadRoute_nonstring_fileName (body : RequestBody) (bytes : List Nat)
    (hv : validHtml body.htmlTemplate = true) :
    (body.fileName.truthy = true → body.fileName.isString = false →
      (downloadRoute body (.ok bytes)).response
        = .err500 "PDF generation failed" "fileName.replace is not a function") ∧
    (body.fileName.truthy = false →
      (downloadRoute body (.ok bytes)).response
        = .pdf200 (sanitizeFileName "document" ++ ".pdf") bytes) := by
  constructor
  · intro ht hs
    cases hf : body.fileName with
    | undef => rw [hf] at ht; cases ht
    | null => rw [hf] at ht; cases ht
    | bool b => simp [downloadRoute, hv, sanitizeStep, hf, JsVal.truthy, Thrown.message] at ht ⊢
                simp [ht, Thrown.message]
    | num n => simp [downloadRoute, hv, sanitizeStep, hf, JsVal.truthy, Thrown.message] at ht ⊢
               simp [ht, Thrown.message]
    | str s => rw [hf] at hs; cases hs
  · intro ht
    simp [downloadRoute, hv, sanitizeStep, ht]

/-- C9 witness: a truthy numeric fileName yields a 500; see the
counterexample theorem for the falsy case. -/
theorem downloadRoute_nonstring_fileName_witness :
    (downloadRoute
        { htmlTemplate := .str "<p>x</p>", fileName := .num 5, paperSize := .undef
          margin := .undef, printBackground := .undef }
        (.ok [1])).response
      = .err500 "PDF generation failed" "fileName.replace is not a function" :=
  (downloadRoute_nonstring_fileName
      { htmlTemplate := .str "<p>x</p>", fileName := .num 5, paperSize := .undef
        margin := .undef, printBackground := .undef }
      [1] (by decide)).1 (by decide) (by decide)

/-- C10: the engine print parameter printBackground is true for every
options value whose printBackground field is not strictly the boolean
false: the strict inequality test treats absence and every falsy
non-boolean value — 0, null, the empty string — as enabling background
printing. -/
theorem printBackground_not_strict_false (o : Option GeneratePdfOptions)
    (h : optPrintBackground o ≠ JsVal.bool false) :
    (buildPdfOptions o).printBackground = true := by
  simp [buildPdfOptions, h]

/-- C10 witness: background printing is enabled when options are absent
and for the falsy non-boolean values 0, null, and the empty string. -/
theorem printBackground_not_strict_false_witness :
    (buildPdfOptions none).printBackground = true ∧
    (buildPdfOptions (some (pbOpts (.num 0)))).printBackground = true ∧
    (buildPdfOptions (some (pbOpts .null))).printBackground = true ∧
    (buildPdfOptions (some (pbOpts (.str "")))).printBackground = true :=
  ⟨printBackground_not_strict_false none (by decide),
   printBackground_not_strict_false (some (pbOpts (.num 0))) (by decide),
   printBackground_not_strict_false (some (pbOpts .null)) (by decide),
   printBackground_not_strict_false (some (pbOpts (.str ""))) (by decide)⟩

end Render
